import Mathlib

/-!
Verification of the invoice reconciliation and ledger-update pipeline
(`app.py` — the v1 app — and `app_v2.py` — the current app).

The Python sources are shallowly embedded as pure Lean functions:
  * spreadsheet cell grids become lists of cell values,
  * HTTP reads become parameters holding the fetched values,
  * HTTP writes (PATCH / PUT / POST) become explicit components of the
    result (an `Option` write, a created flag, a list of attempted names),
  * Python string primitives (`strip`, `lower`, `title`, `in`,
    `re.sub(r"\s*\(.*?\)", ...)`, `int(...)`) and `datetime` arithmetic
    are reimplemented over `List Char` / `Nat` / `Int`.
All definitions are executable so that concrete inputs evaluate by `decide`.
-/

namespace InvoiceAutomation

/-! ## Python string primitives -/

/-- Python `str.strip()` on a character list: drop whitespace at both ends. -/
def pyStripList (cs : List Char) : List Char :=
  ((cs.dropWhile Char.isWhitespace).reverse.dropWhile Char.isWhitespace).reverse

/-- Python `str.strip()`. -/
def pyStrip (s : String) : String :=
  ⟨pyStripList s.data⟩

/-- Python `str.lower()` (ASCII case folding, enough for the names involved). -/
def pyLower (s : String) : String :=
  ⟨s.data.map Char.toLower⟩

/-- Helper for Python `str.title()`: `prevAlpha` records whether the previous
character was alphabetic; an alphabetic character after a non-alphabetic one is
uppercased, any other alphabetic character is lowercased. -/
def pyTitleAux (prevAlpha : Bool) : List Char → List Char
  | [] => []
  | c :: cs =>
    let a := c.isAlpha
    (if a then (if prevAlpha then c.toLower else c.toUpper) else c)
      :: pyTitleAux a cs

/-- Python `str.title()`, e.g. `"muhammad osama"` becomes `"Muhammad Osama"`
(used by `process_employee_folder` as `formatted_name`). -/
def pyTitle (s : String) : String :=
  ⟨pyTitleAux false s.data⟩

/-- Tests whether `needle` occurs at the start of `hay` (character-exact). -/
def isPrefixB : List Char → List Char → Bool
  | [], _ => true
  | _ :: _, [] => false
  | a :: as, b :: bs => a == b && isPrefixB as bs

/-- Python's substring test `needle in hay` on character lists. -/
def substrAux (needle : List Char) : List Char → Bool
  | [] => isPrefixB needle []
  | b :: bs => isPrefixB needle (b :: bs) || substrAux needle bs

/-- Python's substring test `needle in hay` on strings (used by the month
folder matching `current_month_folder_name in item["name"]`). -/
def substrB (needle hay : String) : Bool :=
  substrAux needle.data hay.data

/-- One attempt of the regex `\s*\(.*?\)` past an opening parenthesis: consume
characters up to and including the first `)`, failing on end of input or a
newline (`.` does not match a newline). Returns the remainder after `)`. -/
def afterClose : List Char → Option (List Char)
  | [] => none
  | c :: cs => if c = ')' then some cs else if c = '\n' then none else afterClose cs

/-- Try to match the regex `\s*\(.*?\)` at the current position: maximal
whitespace, a literal `(`, then lazily up to the first `)`. Returns the
remainder after the match, or `none` when the regex does not match here. -/
def parenMatch (cs : List Char) : Option (List Char) :=
  match cs.dropWhile Char.isWhitespace with
  | '(' :: t => afterClose t
  | _ => none

/-- Fuelled scan of Python's `re.sub(r"\s*\(.*?\)", "", s)`: at each position
either delete a parenthetical match or keep one character and move on. Each
step consumes at least one character, so fuel `cs.length` is never exhausted. -/
def removeParensGo : Nat → List Char → List Char
  | 0, cs => cs
  | _ + 1, [] => []
  | fuel + 1, c :: t =>
    match parenMatch (c :: t) with
    | some rest => removeParensGo fuel rest
    | none => c :: removeParensGo fuel t

/-- Python `re.sub(r"\s*\(.*?\)", "", s)` — delete every parenthetical
annotation together with the whitespace just before it. -/
def removeParens (cs : List Char) : List Char :=
  removeParensGo cs.length cs

/-- Function `clean_name` (app_v2.py): `re.sub(r"\s*\(.*?\)", "", name).strip()`. -/
def clean_name (s : String) : String :=
  pyStrip ⟨removeParens s.data⟩

/-- The full name normalization app_v2's ledger row matching applies to both
sides before comparing: `clean_name(x.strip().lower())`. -/
def normalizeKey (s : String) : String :=
  clean_name (pyLower (pyStrip s))

/-- Digits of a character list as a number; `none` when empty or a character
is not a decimal digit (mirrors Python `int(str)` failing). -/
def digitsToNat? : List Char → Option Nat
  | [] => none
  | cs => go cs 0
where
  go : List Char → Nat → Option Nat
    | [], acc => some acc
    | c :: t, acc => if c.isDigit then go t (10 * acc + (c.toNat - 48)) else none

/-- Python `int(s)` for a string: strip whitespace, optional sign, digits;
`none` when the conversion raises `ValueError`. -/
def pyIntOfString? (s : String) : Option Int :=
  match pyStripList s.data with
  | '-' :: ds => (digitsToNat? ds).map (fun n => -(n : Int))
  | '+' :: ds => (digitsToNat? ds).map (fun n => (n : Int))
  | ds => (digitsToNat? ds).map (fun n => (n : Int))

/-! ## Python `datetime` arithmetic

`update_mastersheet_sharepoint` (v2) converts Excel date serials with
`datetime(1899, 12, 30) + timedelta(days=int(header))` and formats with
`strftime("%b-%y")`; `validate_sessions` combines dates and times into
timestamps. The proleptic Gregorian calendar is embedded below. -/

/-- Gregorian leap year. -/
def isLeap (y : Nat) : Bool :=
  (y % 4 == 0 && y % 100 != 0) || y % 400 == 0

def daysInYear (y : Nat) : Nat :=
  if isLeap y then 366 else 365

def monthLen (y m : Nat) : Nat :=
  if m = 2 then (if isLeap y then 29 else 28)
  else if m = 4 ∨ m = 6 ∨ m = 9 ∨ m = 11 then 30 else 31

/-- Consume whole years starting at year `y` from a day count `n` (days since
Jan 1 of year `y`); returns the year reached and the remaining day-of-year.
The fuel bounds the loop; `n + 1` steps always suffice since each step
removes at least 365 days. -/
def yearFromDaysF : Nat → Nat → Nat → Nat × Nat
  | 0, y, n => (y, n)
  | fuel + 1, y, n =>
    if daysInYear y ≤ n then yearFromDaysF fuel (y + 1) (n - daysInYear y)
    else (y, n)

/-- Consume whole months of year `y` starting at month `m` from a zero-based
day-of-year remainder; returns the month and one-based day. Fuel 12 suffices. -/
def monthFromDaysF : Nat → Nat → Nat → Nat → Nat × Nat
  | 0, _, m, n => (m, n + 1)
  | fuel + 1, y, m, n =>
    if m < 12 ∧ monthLen y m ≤ n then monthFromDaysF fuel y (m + 1) (n - monthLen y m)
    else (m, n + 1)

/-- Python `datetime(1899, 12, 30) + timedelta(days=n)` as a `(year, month, day)`
triple. Intended for `n ≥ 2` (dates from 1900-01-01 on — every ledger month
header in use); smaller serials are clamped to the epoch date. -/
def serialToYMD (n : Int) : Nat × Nat × Nat :=
  if n < 2 then (1899, 12, 30)
  else
    let p := yearFromDaysF (n.toNat + 1) 1900 (n.toNat - 2)
    let q := monthFromDaysF 12 p.1 1 p.2
    (p.1, q.1, q.2)

def monthAbbr : Nat → String
  | 1 => "Jan" | 2 => "Feb" | 3 => "Mar" | 4 => "Apr"
  | 5 => "May" | 6 => "Jun" | 7 => "Jul" | 8 => "Aug"
  | 9 => "Sep" | 10 => "Oct" | 11 => "Nov" | 12 => "Dec"
  | _ => ""

/-- Python `strftime("%y")`: zero-padded two-digit year. -/
def twoDigitYear (y : Nat) : String :=
  (if y % 100 < 10 then "0" else "") ++ toString (y % 100)

/-- Python `strftime("%b-%y")` of a (year, month) pair, e.g. `"Feb-25"`. -/
def formatBY (y m : Nat) : String :=
  monthAbbr m ++ "-" ++ twoDigitYear y

/-- An Excel date serial formatted as `"%b-%y"` (v2's header conversion). -/
def serialBY (n : Int) : String :=
  formatBY (serialToYMD n).1 (serialToYMD n).2.1

/-! ## Ledger cell resolution — `update_mastersheet_sharepoint`

app_v2.py fetches the header range `H7:S7` through the Graph API (a list of
cell values starting at column 8) and the employee range `B1:C147` (rows of
column-B and column-C values starting at row 1). app.py (v1) opens the
workbook with openpyxl and scans header columns 8–19 of row 7 and rows 38–87
of columns B/C. -/

/-- A cell value as the Graph API range read returns it to app_v2: either a
text token or a number (Excel stores dates as serial numbers). -/
inductive CellValue
  | str (s : String)
  | num (n : Int)
deriving DecidableEq, Repr

/-- Python `int(header)` on a fetched cell value: a number converts directly,
a string only when it spells an integer. -/
def cellToInt? : CellValue → Option Int
  | .str s => pyIntOfString? s
  | .num n => some n

/-- app_v2's header conversion (step 4): `excel_start_date +
timedelta(days=int(header))` formatted as `"%b-%y"`; headers whose `int(...)`
raises are skipped (`except (ValueError, TypeError)`). -/
def headerTokenV2 (c : CellValue) : Option String :=
  (cellToInt? c).map serialBY

/-- The column scan of app_v2 step 4: `enumerate(headers_values, start=8)`,
first header whose converted token equals `month` wins. -/
def findMonthColV2Go (month : String) : Nat → List CellValue → Option Nat
  | _, [] => none
  | col, h :: t =>
    match headerTokenV2 h with
    | some tok => if tok = month then some col else findMonthColV2Go month (col + 1) t
    | none => findMonthColV2Go month (col + 1) t

/-- app_v2's month column resolution over the fetched `H7:S7` header cells;
`none` models the `"Error: Month '...' not found in master sheet."` return. -/
def findMonthColV2 (headers : List CellValue) (month : String) : Option Nat :=
  findMonthColV2Go month 8 headers

/-- A cell value as openpyxl hands it to app.py (v1): date cells are
`datetime` objects, text cells strings, blank cells `None`. -/
inductive CellV1
  | dt (y m d : Nat)
  | str (s : String)
  | empty
deriving DecidableEq, Repr

/-- v1's header token: a `datetime` cell is formatted `"%b-%y"`, any other
cell value is compared as it is (`formatted_header = cell_value`); a blank
cell (`None`) never equals the month string. -/
def headerTokenV1 : CellV1 → Option String
  | .dt y m _ => some (formatBY y m)
  | .str s => some s
  | .empty => none

/-- The column scan of app.py: `for col in range(8, 20)` over row 7; `headers`
holds the cells of columns 8–19 in order. -/
def findMonthColV1Go (month : String) : Nat → List CellV1 → Option Nat
  | _, [] => none
  | col, h :: t =>
    match headerTokenV1 h with
    | some tok => if tok = month then some col else findMonthColV1Go month (col + 1) t
    | none => findMonthColV1Go month (col + 1) t

/-- app.py's month column resolution; `none` models the month-not-found
return. -/
def findMonthColV1 (headers : List CellV1) (month : String) : Option Nat :=
  findMonthColV1Go month 8 headers

/-- app_v2's row qualification (step 5): `len(row) > 1 and
clean_name(row[1].strip().lower()) == clean_name(employee_name.strip().lower())`.
The category cell `row[0]` is not consulted. -/
def rowMatchesV2 (employee : String) (row : List String) : Bool :=
  decide (1 < row.length) &&
    match row.drop 1 with
    | c :: _ => normalizeKey c == normalizeKey employee
    | [] => false

/-- app_v2's row scan: `enumerate(name_values, start=1)` over the `B1:C147`
rows, first qualifying row wins. -/
def findRowV2Go (employee : String) : Nat → List (List String) → Option Nat
  | _, [] => none
  | idx, r :: rest =>
    if rowMatchesV2 employee r then some idx else findRowV2Go employee (idx + 1) rest

/-- app_v2's employee row resolution; `none` models the `"Error: Employee
'...' not found in the master sheet."` return. -/
def findRowV2 (rows : List (List String)) (employee : String) : Option Nat :=
  findRowV2Go employee 1 rows

/-- app.py's row qualification: column B must equal the literal
`"STARFLEET  / Catalyst"` (note the two spaces) exactly, and the stripped
column-C name must equal the stripped input, case-sensitively. -/
def rowMatchesV1 (employee : String) (row : String × String) : Bool :=
  row.1 == "STARFLEET  / Catalyst" && pyStrip row.2 == pyStrip employee

/-- app.py's row scan: `for row in range(38, 88)`; `rows` holds the (B, C)
cell pairs of sheet rows 38–87 in order. -/
def findRowV1Go (employee : String) : Nat → List (String × String) → Option Nat
  | _, [] => none
  | idx, r :: rest =>
    if rowMatchesV1 employee r then some idx else findRowV1Go employee (idx + 1) rest

/-- app.py's employee row resolution; `none` models the employee-not-found
return. -/
def findRowV1 (rows : List (String × String)) (employee : String) : Option Nat :=
  findRowV1Go employee 38 rows

/-! ## Ledger update — writes made explicit

Both versions issue their single remote write (a range PATCH in v2, the
re-upload of the modified workbook in v1) only after both lookups succeed;
the `Option PatchWrite` component records whether a write was issued. -/

/-- The one cell write a successful ledger update issues. -/
structure PatchWrite where
  row : Nat
  col : Nat
  value : Int
deriving DecidableEq, Repr

/-- Function `update_mastersheet_sharepoint` (app_v2.py): resolve the month column,
then the employee row, then patch the single target cell. The first component
is the PATCH issued (none on the error returns), the second the returned
status message. -/
def update_mastersheet_v2 (headers : List CellValue) (rows : List (List String))
    (employee : String) (total : Int) (month : String) :
    Option PatchWrite × String :=
  match findMonthColV2 headers month with
  | none => (none, "Error: Month '" ++ month ++ "' not found in master sheet.")
  | some col =>
    match findRowV2 rows employee with
    | none => (none, "Error: Employee '" ++ employee ++ "' not found in the master sheet.")
    | some row =>
      (some ⟨row, col, total⟩,
        "Successfully updated total for '" ++ employee ++ "' in '" ++ month ++ "'.")

/-- Function `update_mastersheet_sharepoint` (app.py): the downloaded workbook is
modified locally and uploaded back only after both lookups succeed; on the
error returns the temp file is deleted and no upload happens, so the remote
ledger is untouched. -/
def update_mastersheet_v1 (headers : List CellV1) (rows : List (String × String))
    (employee : String) (total : Int) (month : String) :
    Option PatchWrite × String :=
  match findMonthColV1 headers month with
  | none => (none, "Error: Month '" ++ month ++ "' not found in master sheet.")
  | some col =>
    match findRowV1 rows employee with
    | none => (none, "Error: Employee '" ++ employee ++ "' not found in the master sheet.")
    | some row =>
      (some ⟨row, col, total⟩,
        "Successfully updated total for '" ++ employee ++ "' in '" ++ month ++ "'.")

/-! ## Remote folder provisioning -/

/-- A child item of a drive folder as the Graph listing returns it. -/
structure DriveItem where
  name : String
  id : String
  isFolder : Bool
deriving DecidableEq, Repr

/-- The month index of `get_or_create_month_folder` (app_v2.py):
`(current_year - 2024) * 12 + (current_month - 7) + 1` — July 2024 is 1. -/
def monthIndexV2 (y m : Nat) : Int :=
  ((y : Int) - 2024) * 12 + ((m : Int) - 7) + 1

/-- The month index of `get_or_create_month_folder` (app.py):
`datetime.now().month - 6`, with no year term. -/
def monthIndexV1 (m : Nat) : Int :=
  (m : Int) - 6

/-- The academic-year start of `current_academic_year` (both versions):
August–December belong to the cycle starting that year, January–July to the
cycle starting the year before. -/
def academicCycleStart (y m : Nat) : Int :=
  if 8 ≤ m then (y : Int) else (y : Int) - 1

/-- Strict "earlier than" on (year, month) dates. -/
def dateEarlier (y1 m1 y2 m2 : Nat) : Prop :=
  y1 < y2 ∨ (y1 = y2 ∧ m1 < m2)

instance (y1 m1 y2 m2 : Nat) : Decidable (dateEarlier y1 m1 y2 m2) := by
  unfold dateEarlier; infer_instance

/-- Function `get_or_create_month_folder`'s check-then-create step (app_v2.py, acting
on a successfully listed parent): a child folder whose name CONTAINS the
computed name (`current_month_folder_name in item["name"]`) counts as
existing and the computed name is returned; otherwise a folder of that name
is created (201 path). Result: (children after, returned name, whether a
creation POST was issued). -/
def get_or_create_month_folder (items : List DriveItem) (target : String)
    (freshId : String) : List DriveItem × String × Bool :=
  match items.find? (fun it => it.isFolder && substrB target it.name) with
  | some _ => (items, target, false)
  | none => (items ++ [⟨target, freshId, true⟩], target, true)

/-- The folder step of `process_employee_folder` (both versions): a child
folder whose name EQUALS the title-cased employee name is used; otherwise one
is created. Result: (children after, folder id, whether a creation POST was
issued). -/
def ensure_employee_folder (items : List DriveItem) (formatted : String)
    (freshId : String) : List DriveItem × String × Bool :=
  match items.find? (fun it => it.isFolder && formatted == it.name) with
  | some it => (items, it.id, false)
  | none => (items ++ [⟨formatted, freshId, true⟩], freshId, true)

/-! ## Upload step of `process_employee_folder` -/

/-- The operator-facing classification of one upload response (§4.6 of the
design): the PUT's 201 is create-success, 200 is replaced-an-existing-item,
anything else an error carrying the status code. This is the decision
structure of the `if upload_response.status_code != 201 / == 200 / else`
ladder in both versions. -/
inductive UploadOutcome
  | created
  | alreadyExists
  | error (code : Nat)
deriving DecidableEq, Repr

def classifyUpload (status : Nat) : UploadOutcome :=
  if status = 201 then .created
  else if status = 200 then .alreadyExists
  else .error status

/-- Log lines the mandatory invoice upload appends (both versions): nothing
on 201, an already-exists note on 200, an error line otherwise. -/
def invoiceLogs (path : String) (status : Nat) : List String :=
  if status = 201 then []
  else if status = 200 then ["Invoice " ++ path ++ " Already exist with the same name."]
  else ["Error uploading invoice: " ++ toString status]

/-- Log lines one optional-file upload appends (both versions). -/
def receiptLogs (name : String) (status : Nat) : List String :=
  if status = 201 then []
  else if status = 200 then ["Receipt " ++ name ++ " Already exist with the same name."]
  else ["Error uploading file '" ++ name ++ "': " ++ toString status]

/-- The optional-file loop: one PUT per file, in order, with no early exit.
Files are given with the status their PUT returns. Result: (log lines, the
names PUT was attempted for, in order). -/
def uploadOptionals : List (String × Nat) → List String × List String
  | [] => ([], [])
  | (n, s) :: rest =>
    let acc := uploadOptionals rest
    (receiptLogs n s ++ acc.1, n :: acc.2)

/-- The result of listing the parent folder. -/
inductive Listing
  | ok (items : List DriveItem)
  | httpError (code : Nat)

/-- Function `process_employee_folder` (app_v2.py; app.py differs only in the
fetch-error log text): title-case the name, find or create the employee
folder, PUT the mandatory invoice, PUT each optional file, and append the
success line. A failed folder creation returns a bare string (`Sum.inl`);
every other path returns the log list (`Sum.inr`). `invStatus` is the status
of the invoice PUT and each optional file carries the status of its PUT. -/
def process_employee_folder (listing : Listing) (createStatus : Nat)
    (_freshId : String) (employee_name invoicePath : String) (invStatus : Nat)
    (optFiles : List (String × Nat)) : Sum String (List String) :=
  let formatted := pyTitle employee_name
  match listing with
  | .httpError code =>
    .inr ["Error fetching parent folder in 'process_employee_folder': " ++ toString code]
  | .ok items =>
    match items.find? (fun it => it.isFolder && formatted == it.name) with
    | some _ =>
      .inr (invoiceLogs invoicePath invStatus ++ (uploadOptionals optFiles).1
        ++ ["Files uploaded successfully to folder: " ++ formatted])
    | none =>
      if createStatus = 201 then
        .inr (invoiceLogs invoicePath invStatus ++ (uploadOptionals optFiles).1
          ++ ["Files uploaded successfully to folder: " ++ formatted])
      else
        .inl ("Error creating folder: " ++ toString createStatus)

/-! ## Invoice number increment — `increment_invoice_number` (app_v2.py) -/

/-- Python `row and row[0] == target_email`: the row is non-empty and its first cell
is the email. -/
def emailCellMatches (email : String) (row : List String) : Bool :=
  match row.head? with
  | some v => v == email
  | none => false

/-- The used-range scan: `enumerate(used_range_values, start=1)`. -/
def findEmailRowGo (email : String) : Nat → List (List String) → Option Nat
  | _, [] => none
  | idx, r :: rest =>
    if emailCellMatches email r then some idx else findEmailRowGo email (idx + 1) rest

def findEmailRow (rows : List (List String)) (email : String) : Option Nat :=
  findEmailRowGo email 1 rows

/-- Function `increment_invoice_number` (app_v2.py): find the row whose first cell is
the email; read the `D` cell of that row (`counterD`, `none` standing for an
empty cell); `new_value = int(current_value) + 1 if current_value else 1`
(an empty or zero cell is falsy); patch the cell. `Sum.inr (row, value)` is
the PATCH issued; `Sum.inl` is the error return, with no write. -/
def increment_invoice_number (rows : List (List String))
    (counterD : Nat → Option Int) (email : String) : Sum String (Nat × Int) :=
  match findEmailRow rows email with
  | none => .inl ("Error: Email '" ++ email ++ "' not found in the 'Email' sheet.")
  | some i =>
    match counterD i with
    | none => .inr (i, 1)
    | some n => .inr (i, if n = 0 then 1 else n + 1)

/-! ## Calendar reconciliation — `validate_sessions` (app_v2.py) -/

/-- Days from 1900-01-01 contributed by the whole years `[1900, 1900 + k)`. -/
def yearsDaysF : Nat → Nat → Nat
  | 0, _ => 0
  | k + 1, y => daysInYear y + yearsDaysF k (y + 1)

/-- Days contributed by the whole months `[cur, m)` of year `y` (fuel 12). -/
def monthsDaysF : Nat → Nat → Nat → Nat → Nat
  | 0, _, _, _ => 0
  | fuel + 1, y, cur, m =>
    if cur < m then monthLen y cur + monthsDaysF fuel y (cur + 1) m else 0

/-- Days between 1900-01-01 and the given date (proleptic Gregorian,
`y ≥ 1900`) — the day arithmetic under Python's `datetime`. -/
def daysSinceEpoch (y m d : Nat) : Nat :=
  yearsDaysF (y - 1900) 1900 + monthsDaysF 12 y 1 m + (d - 1)

/-- Seconds between 1900-01-01 00:00:00 and the given naive timestamp. -/
def naiveSeconds (y mo d h mi s : Nat) : Int :=
  ((daysSinceEpoch y mo d) : Int) * 86400 + (h : Int) * 3600 + (mi : Int) * 60 + (s : Int)

/-- A submitted work session: the `strptime`-parsed combination of its date
(`%d-%m-%Y`) and time (`%H:%M:%S`) fields, still naive. -/
structure Session where
  year : Nat
  month : Nat
  day : Nat
  hour : Nat
  minute : Nat
  second : Nat
deriving DecidableEq, Repr

/-- The session's naive timestamp in seconds. -/
def Session.naive (s : Session) : Int :=
  naiveSeconds s.year s.month s.day s.hour s.minute s.second

/-- A calendar event with UTC start/end instants (`fromisoformat` of the
`...Z` strings, in seconds since 1900-01-01 00:00:00 UTC). -/
structure Event where
  title : String
  evStart : Int
  evEnd : Int
deriving DecidableEq, Repr

/-- UTC start/end instants for an event given by UTC date-time components. -/
def utcInstant (y mo d h mi s : Nat) : Int :=
  naiveSeconds y mo d h mi s

/-- Python `user_timezone.localize(user_time_naive)` as an instant: a naive local
time in a zone `tz` seconds east of UTC denotes the instant `naive − tz`.
`astimezone` changes only the displayed zone, never the instant, so the
comparisons in `validate_sessions` compare instants. -/
def sessionInstant (tz : Int) (s : Session) : Int :=
  s.naive - tz

/-- Python `event_start <= user_time <= event_end`, both endpoints inclusive. -/
def eventContains (tz : Int) (s : Session) (e : Event) : Bool :=
  decide (e.evStart ≤ sessionInstant tz s ∧ sessionInstant tz s ≤ e.evEnd)

/-- Per-session outcome: `"Matched"` with the matching event, or
`"No Match Found"`. -/
inductive VResult
  | matched (e : Event)
  | noMatch
deriving DecidableEq, Repr

/-- The inner event loop of `validate_sessions`: first containing event wins
(`break`), `noMatch` when the loop finishes without setting `match_found`. -/
def scanEvents (tz : Int) (s : Session) : List Event → VResult
  | [] => .noMatch
  | e :: es => if eventContains tz s e then .matched e else scanEvents tz s es

/-- Function `validate_sessions(user_sessions, api_events, tz)`: one result per
session, in order. -/
def validate_sessions (sessions : List Session) (events : List Event)
    (tz : Int) : List VResult :=
  match sessions with
  | [] => []
  | s :: rest => scanEvents tz s events :: validate_sessions rest events tz

/-! ## Generic first-match scan

Each of the resolution loops above returns the first index (counted from some
start value) whose element satisfies a predicate. `scanFirst` is that common
shape; each loop is proved equal to it so the characterization lemmas below
apply to all of them. -/

def scanFirst {α : Type} (p : α → Bool) : Nat → List α → Option Nat
  | _, [] => none
  | i, x :: xs => if p x then some i else scanFirst p (i + 1) xs

/-! ## Specification-side row resolution (for comparison with the code)

The row-resolution rule as the specification words it, used only to compare
against the implementations: a row qualifies when its category cell equals
the category marker (whitespace-collapsed, case-sensitive) AND its name cell,
normalized by trim / parenthetical removal / case fold, equals the normalized
employee name; the first qualifying row wins. -/

/-- Collapse each whitespace run to a single space (and trim the ends). -/
def squeezeSpaces : List Char → List Char
  | [] => []
  | [c] => [if c.isWhitespace then ' ' else c]
  | a :: b :: t =>
    if a.isWhitespace && b.isWhitespace then squeezeSpaces (b :: t)
    else (if a.isWhitespace then ' ' else a) :: squeezeSpaces (b :: t)

def collapseWS (s : String) : String :=
  ⟨squeezeSpaces (pyStripList s.data)⟩

/-- The specification's `normalizeName`: trim whitespace, remove any
parenthetical annotation, case-fold. -/
def specNormalizeName (s : String) : String :=
  pyLower ⟨removeParens (pyStrip s).data⟩

/-- The specification's row qualification over a (category cell, name cell)
pair. -/
def specRowQualifies (marker emp : String) (row : String × String) : Bool :=
  collapseWS row.1 == collapseWS marker &&
    specNormalizeName row.2 == specNormalizeName emp

/-- The specification's row resolution: first qualifying row, 1-based. -/
def specRowResolution (rows : List (String × String)) (marker emp : String) :
    Option Nat :=
  scanFirst (specRowQualifies marker emp) 1 rows

/-! ## Concrete fixtures used in the statements -/

/-- The calendar event of the worked example: 2025-01-10 08:30:00Z to
2025-01-10 09:30:00Z. -/
def exEvent : Event :=
  ⟨"Event", utcInstant 2025 1 10 8 30 0, utcInstant 2025 1 10 9 30 0⟩

/-- A roster column-D reading with an invoice counter of 41 in sheet row 2
and an empty cell everywhere else. -/
def exCounterD : Nat → Option Int :=
  fun i => if i = 2 then some 41 else none


/-! ## General lemmas about the scans -/

theorem scanFirst_eq_none_iff {α : Type} (p : α → Bool) (i : Nat) (xs : List α) :
    scanFirst p i xs = none ↔ ∀ x ∈ xs, p x = false := by
  induction xs generalizing i with
  | nil => simp [scanFirst]
  | cons a t ih =>
    by_cases h : p a
    · simp [scanFirst, h]
    · simp [scanFirst, h, ih]

theorem scanFirst_eq_some_iff {α : Type} (p : α → Bool) (i j : Nat) (xs : List α) :
    scanFirst p i xs = some j ↔
      ∃ k, ∃ hk : k < xs.length, j = i + k ∧ p (xs.get ⟨k, hk⟩) = true ∧
        ∀ x ∈ xs.take k, p x = false := by
  induction xs generalizing i j with
  | nil => simp [scanFirst]
  | cons a t ih =>
    by_cases h : p a
    · simp only [scanFirst, h, if_pos]
      constructor
      · rintro hj
        have hji : j = i := by simpa using hj.symm
        exact ⟨0, by simp, by simpa using hji, by simpa using h, by simp⟩
      · rintro ⟨k, hk, hj, hp, hall⟩
        cases k with
        | zero => simp [hj]
        | succ k' =>
          exfalso
          have : p a = false := hall a (by simp)
          simp [h] at this
    · simp only [scanFirst, h, if_neg, Bool.false_eq_true, not_false_iff]
      rw [ih]
      constructor
      · rintro ⟨k, hk, hj, hp, hall⟩
        refine ⟨k + 1, by simpa using Nat.succ_lt_succ hk, by omega, by simpa using hp, ?_⟩
        intro x hx
        simp only [List.take_succ_cons, List.mem_cons] at hx
        rcases hx with rfl | hx
        · simpa using h
        · exact hall x hx
      · rintro ⟨k, hk, hj, hp, hall⟩
        cases k with
        | zero =>
          exfalso
          simp at hp
          exact h hp
        | succ k' =>
          refine ⟨k', by simpa using Nat.lt_of_succ_lt_succ hk, by omega, by simpa using hp, ?_⟩
          intro x hx
          exact hall x (by simp [hx])

theorem findRowV2_eq_scanFirst (emp : String) (i : Nat) (rows : List (List String)) :
    findRowV2Go emp i rows = scanFirst (rowMatchesV2 emp) i rows := by
  induction rows generalizing i with
  | nil => rfl
  | cons r t ih => simp [findRowV2Go, scanFirst, ih]

theorem findRowV1_eq_scanFirst (emp : String) (i : Nat) (rows : List (String × String)) :
    findRowV1Go emp i rows = scanFirst (rowMatchesV1 emp) i rows := by
  induction rows generalizing i with
  | nil => rfl
  | cons r t ih => simp [findRowV1Go, scanFirst, ih]

theorem findEmailRow_eq_scanFirst (email : String) (i : Nat) (rows : List (List String)) :
    findEmailRowGo email i rows = scanFirst (emailCellMatches email) i rows := by
  induction rows generalizing i with
  | nil => rfl
  | cons r t ih => simp [findEmailRowGo, scanFirst, ih]

theorem findMonthColV2_eq_scanFirst (month : String) (i : Nat) (hs : List CellValue) :
    findMonthColV2Go month i hs =
      scanFirst (fun h => decide (headerTokenV2 h = some month)) i hs := by
  induction hs generalizing i with
  | nil => rfl
  | cons a t ih =>
    simp only [findMonthColV2Go, scanFirst]
    split
    · rename_i tok heq
      by_cases he : tok = month
      · simp [heq, he]
      · simp [heq, he, ih]
    · rename_i heq
      simp [heq, ih]

theorem findMonthColV1_eq_scanFirst (month : String) (i : Nat) (hs : List CellV1) :
    findMonthColV1Go month i hs =
      scanFirst (fun h => decide (headerTokenV1 h = some month)) i hs := by
  induction hs generalizing i with
  | nil => rfl
  | cons a t ih =>
    simp only [findMonthColV1Go, scanFirst]
    split
    · rename_i tok heq
      by_cases he : tok = month
      · simp [heq, he]
      · simp [heq, he, ih]
    · rename_i heq
      simp [heq, ih]

theorem isPrefixB_self (l : List Char) : isPrefixB l l = true := by
  induction l with
  | nil => rfl
  | cons a t ih => simp [isPrefixB, ih]

theorem substrB_self (s : String) : substrB s s = true := by
  unfold substrB
  cases h : s.data with
  | nil => rfl
  | cons a t => simp [substrAux, isPrefixB_self]

theorem find?_append_none {α : Type} (p : α → Bool) (l1 l2 : List α)
    (h : l1.find? p = none) : (l1 ++ l2).find? p = l2.find? p := by
  induction l1 with
  | nil => simp
  | cons a t ih =>
    rcases hpa : p a with _ | _
    · rw [List.find?_cons_of_neg _ (by simp [hpa])] at h
      rw [List.cons_append, List.find?_cons_of_neg _ (by simp [hpa])]
      exact ih h
    · rw [List.find?_cons_of_pos _ hpa] at h
      exact absurd h (by simp)

theorem scanEvents_noMatch_iff (tz : Int) (s : Session) (es : List Event) :
    scanEvents tz s es = VResult.noMatch ↔ ∀ ev ∈ es, eventContains tz s ev = false := by
  induction es with
  | nil => simp [scanEvents]
  | cons a t ih =>
    by_cases h : eventContains tz s a
    · simp [scanEvents, h]
    · simp [scanEvents, h, ih]

theorem scanEvents_matched_iff (tz : Int) (s : Session) (e : Event) (es : List Event) :
    scanEvents tz s es = VResult.matched e ↔
      ∃ k, ∃ hk : k < es.length, es.get ⟨k, hk⟩ = e ∧ eventContains tz s e = true ∧
        ∀ ev ∈ es.take k, eventContains tz s ev = false := by
  induction es with
  | nil => simp [scanEvents]
  | cons a t ih =>
    by_cases h : eventContains tz s a
    · simp only [scanEvents]
      rw [if_pos h]
      constructor
      · rintro he
        have hae : a = e := by simpa using he
        exact ⟨0, by simp, by simpa using hae, hae ▸ h, by simp⟩
      · rintro ⟨k, hk, hke, hce, hall⟩
        cases k with
        | zero => simp at hke; simp [hke]
        | succ k' =>
          exfalso
          have : eventContains tz s a = false := hall a (by simp)
          simp [h] at this
    · simp only [scanEvents]
      rw [if_neg h, ih]
      constructor
      · rintro ⟨k, hk, hke, hce, hall⟩
        refine ⟨k + 1, by simpa using Nat.succ_lt_succ hk, by simpa using hke, hce, ?_⟩
        intro ev hev
        simp only [List.take_succ_cons, List.mem_cons] at hev
        rcases hev with rfl | hev
        · simpa using h
        · exact hall ev hev
      · rintro ⟨k, hk, hke, hce, hall⟩
        cases k with
        | zero =>
          exfalso
          simp at hke
          rw [hke] at h
          exact h hce
        | succ k' =>
          refine ⟨k', by simpa using Nat.lt_of_succ_lt_succ hk, by simpa using hke, hce, ?_⟩
          intro ev hev
          exact hall ev (by simp [hev])

/-! ## Claim theorems -/

/-- C1 (counterexample): the claim states that a header stored as the text
token `"Feb-25"` is converted and compared, so that resolving `"Feb-25"`
over the header row `["Jan-25", "Feb-25", "Mar-25"]` returns column 9.
app_v2's resolver converts a header with `int(header)` and skips headers
that do not parse as an integer, so on that very header row it returns
MonthNotFound (`none`), not column 9. -/
theorem month_column_text_counterexample :
    findMonthColV2 [CellValue.str "Jan-25", CellValue.str "Feb-25", CellValue.str "Mar-25"]
      "Feb-25" = none ∧
    ¬ findMonthColV2 [CellValue.str "Jan-25", CellValue.str "Feb-25", CellValue.str "Mar-25"]
      "Feb-25" = some 9 := by
  exact ⟨by decide, by decide⟩

/-- C1 (amended): in app_v2, headers that do not convert with `int(...)`
are skipped, so a header row of pure text tokens resolves every month to
MonthNotFound; a column is returned exactly when it is the first (scanning
from column 8) whose integer serial formats to the requested `"%b-%y"`
token. With serial-valued headers for Jan/Feb/Mar 2025, `"Feb-25"` resolves
to column 9 and `"Dec-24"` to MonthNotFound. In app.py (v1), a text header
is compared verbatim and a datetime header is formatted, so over
`["Jan-25", "Feb-25", "Mar-25"]` resolving `"Feb-25"` returns column 9 and
`"Dec-24"` MonthNotFound. -/
theorem month_column_resolution_amended (hs hs2 : List CellValue) (month : String) (j : Nat)
    (htext : ∀ c ∈ hs, cellToInt? c = none) :
    findMonthColV2 hs month = none ∧
    (findMonthColV2 hs2 month = some j ↔
      ∃ k, ∃ hk : k < hs2.length, j = 8 + k ∧
        headerTokenV2 (hs2.get ⟨k, hk⟩) = some month ∧
        ∀ c ∈ hs2.take k, ¬ headerTokenV2 c = some month) ∧
    findMonthColV2 [CellValue.str "Jan-25", CellValue.str "Feb-25", CellValue.str "Mar-25"]
      "Feb-25" = none ∧
    findMonthColV2 [CellValue.num 45658, CellValue.num 45689, CellValue.num 45717]
      "Feb-25" = some 9 ∧
    findMonthColV2 [CellValue.num 45658, CellValue.num 45689, CellValue.num 45717]
      "Dec-24" = none ∧
    findMonthColV1 [CellV1.str "Jan-25", CellV1.str "Feb-25", CellV1.str "Mar-25"]
      "Feb-25" = some 9 ∧
    findMonthColV1 [CellV1.str "Jan-25", CellV1.str "Feb-25", CellV1.str "Mar-25"]
      "Dec-24" = none ∧
    findMonthColV1 [CellV1.dt 2025 1 1, CellV1.dt 2025 2 1, CellV1.dt 2025 3 1]
      "Feb-25" = some 9 := by
  refine ⟨?_, ?_, by decide, by decide, by decide, by decide, by decide, by decide⟩
  · unfold findMonthColV2
    rw [findMonthColV2_eq_scanFirst, scanFirst_eq_none_iff]
    intro c hc
    simp [headerTokenV2, htext c hc]
  · unfold findMonthColV2
    rw [findMonthColV2_eq_scanFirst, scanFirst_eq_some_iff]
    constructor
    · rintro ⟨k, hk, hj, hp, hall⟩
      exact ⟨k, hk, hj, by simpa using hp, fun c hc => by simpa using hall c hc⟩
    · rintro ⟨k, hk, hj, hp, hall⟩
      exact ⟨k, hk, hj, by simpa using hp, fun c hc => by simpa using hall c hc⟩

/-- C1 (witness): the amended theorem applied at the text header row (for
the hypothesis) and the serial header row. -/
theorem month_column_resolution_amended_check :
    findMonthColV2 [CellValue.str "Jan-25", CellValue.str "Feb-25", CellValue.str "Mar-25"]
      "Feb-25" = none ∧
    (findMonthColV2 [CellValue.num 45658, CellValue.num 45689, CellValue.num 45717]
        "Feb-25" = some 9 ↔
      ∃ k, ∃ hk : k < ([CellValue.num 45658, CellValue.num 45689, CellValue.num 45717] :
          List CellValue).length, (9 : Nat) = 8 + k ∧
        headerTokenV2 (([CellValue.num 45658, CellValue.num 45689, CellValue.num 45717] :
          List CellValue).get ⟨k, hk⟩) = some "Feb-25" ∧
        ∀ c ∈ ([CellValue.num 45658, CellValue.num 45689, CellValue.num 45717] :
          List CellValue).take k, ¬ headerTokenV2 c = some "Feb-25") ∧
    findMonthColV2 [CellValue.str "Jan-25", CellValue.str "Feb-25", CellValue.str "Mar-25"]
      "Feb-25" = none ∧
    findMonthColV2 [CellValue.num 45658, CellValue.num 45689, CellValue.num 45717]
      "Feb-25" = some 9 ∧
    findMonthColV2 [CellValue.num 45658, CellValue.num 45689, CellValue.num 45717]
      "Dec-24" = none ∧
    findMonthColV1 [CellV1.str "Jan-25", CellV1.str "Feb-25", CellV1.str "Mar-25"]
      "Feb-25" = some 9 ∧
    findMonthColV1 [CellV1.str "Jan-25", CellV1.str "Feb-25", CellV1.str "Mar-25"]
      "Dec-24" = none ∧
    findMonthColV1 [CellV1.dt 2025 1 1, CellV1.dt 2025 2 1, CellV1.dt 2025 3 1]
      "Feb-25" = some 9 :=
  month_column_resolution_amended
    [CellValue.str "Jan-25", CellValue.str "Feb-25", CellValue.str "Mar-25"]
    [CellValue.num 45658, CellValue.num 45689, CellValue.num 45717]
    "Feb-25" 9 (by decide)

/-- C2 (counterexample): the claim states a row qualifies only if its
category cell equals the marker AND its normalized name matches, so with
rows `[("Other", "Bob (x)"), ("STARFLEET / Catalyst", "Bob (temp)")]` and
name `"bob"` the second row is the first qualifying one. app_v2 never reads
the category cell: it returns the first row, whose category `"Other"` does
not match the marker. (`specRowResolution` is the rule as the claim words
it.) -/
theorem row_resolution_category_counterexample :
    specRowResolution [("Other", "Bob (x)"), ("STARFLEET / Catalyst", "Bob (temp)")]
      "STARFLEET / Catalyst" "bob" = some 2 ∧
    findRowV2 [["Other", "Bob (x)"], ["STARFLEET / Catalyst", "Bob (temp)"]] "bob" = some 1 ∧
    rowMatchesV2 "bob" ["Other", "Bob (x)"] = true ∧
    ¬ collapseWS "Other" = collapseWS "STARFLEET / Catalyst" := by
  exact ⟨by decide, by decide, by decide, by decide⟩

/-- C2 (amended): in app_v2 a row qualifies exactly when it has more than
one cell and its name cell, normalized by strip / lowercase / parenthetical
removal, equals the normalized employee name — the category cell is
ignored; the first qualifying row (1-based) is returned and EmployeeNotFound
(`none`) exactly when no row qualifies. The claim's examples still resolve
as stated (`"bob"` finds row 2 of the example grid, `"carol"` fails), but a
name-matching row with the wrong category wins over a later fully matching
row. In app.py a row qualifies only with category cell exactly
`"STARFLEET  / Catalyst"` (two spaces) and a case-sensitive stripped name
match, so `"bob"` does not match `"Bob (temp)"` there. -/
theorem row_resolution_amended (rows : List (List String)) (emp : String) (j : Nat) :
    (findRowV2 rows emp = none ↔ ∀ r ∈ rows, rowMatchesV2 emp r = false) ∧
    (findRowV2 rows emp = some j ↔
      ∃ k, ∃ hk : k < rows.length, j = 1 + k ∧
        rowMatchesV2 emp (rows.get ⟨k, hk⟩) = true ∧
        ∀ r ∈ rows.take k, rowMatchesV2 emp r = false) ∧
    findRowV2 [["Other", "Alice"], ["STARFLEET / Catalyst", "Bob (temp)"]] "bob" = some 2 ∧
    findRowV2 [["Other", "Alice"], ["STARFLEET / Catalyst", "Bob (temp)"]] "carol" = none ∧
    findRowV2 [["Other", "Bob (x)"], ["STARFLEET / Catalyst", "Bob (temp)"]] "bob" = some 1 ∧
    findRowV1 [("STARFLEET  / Catalyst", "Bob (temp)")] "bob" = none ∧
    findRowV1 [("Other", "ignored"), ("STARFLEET  / Catalyst", " Alice ")] "Alice" = some 39 := by
  refine ⟨?_, ?_, by decide, by decide, by decide, by decide, by decide⟩
  · unfold findRowV2
    rw [findRowV2_eq_scanFirst, scanFirst_eq_none_iff]
  · unfold findRowV2
    rw [findRowV2_eq_scanFirst, scanFirst_eq_some_iff]

set_option maxRecDepth 8000 in
/-- C3 (confirmed): `validate_sessions` reports, per session in order, the
first event (in list order) whose interval `[start, end]` — compared as
instants, after the session's naive timestamp is localized by the zone
offset — contains the session timestamp, inclusively at both endpoints; if
no event's interval contains it the result is NoMatch. The worked example:
a session at 2025-01-10 09:00:00 in Europe/London (offset 0 in January)
matches the event 2025-01-10T08:30:00Z–09:30:00Z, a session one minute
after the event's end does not, and the endpoint itself still matches. -/
theorem session_validation_spec (ss : List Session) (es : List Event) (tz : Int)
    (s : Session) (e : Event) :
    validate_sessions ss es tz = ss.map (fun x => scanEvents tz x es) ∧
    (scanEvents tz s es = VResult.noMatch ↔ ∀ ev ∈ es, eventContains tz s ev = false) ∧
    (scanEvents tz s es = VResult.matched e ↔
      ∃ k, ∃ hk : k < es.length, es.get ⟨k, hk⟩ = e ∧ eventContains tz s e = true ∧
        ∀ ev ∈ es.take k, eventContains tz s ev = false) ∧
    (eventContains tz s e = true ↔
      (e.evStart ≤ s.naive - tz ∧ s.naive - tz ≤ e.evEnd)) ∧
    validate_sessions [⟨2025, 1, 10, 9, 0, 0⟩] [exEvent] 0 = [VResult.matched exEvent] ∧
    validate_sessions [⟨2025, 1, 10, 9, 31, 0⟩] [exEvent] 0 = [VResult.noMatch] ∧
    validate_sessions [⟨2025, 1, 10, 9, 30, 0⟩] [exEvent] 0 = [VResult.matched exEvent] := by
  refine ⟨?_, scanEvents_noMatch_iff tz s es, scanEvents_matched_iff tz s e es, ?_,
    by decide, by decide, by decide⟩
  · induction ss with
    | nil => rfl
    | cons x t ih => simp [validate_sessions, ih]
  · simp [eventContains, sessionInstant]

/-- C4 (counterexample): app.py's month-folder index is
`datetime.now().month - 6` with no year term, so inside the 2024-25
academic cycle December 2024 gets index 6 while the later January 2025
gets index −5: the claimed formula/monotonicity fails for that
provisioner. -/
theorem month_index_v1_counterexample :
    academicCycleStart 2024 12 = academicCycleStart 2025 1 ∧
    dateEarlier 2024 12 2025 1 ∧
    monthIndexV1 12 = 6 ∧ monthIndexV1 1 = -5 ∧
    ¬ monthIndexV1 12 < monthIndexV1 1 := by
  exact ⟨by decide, by decide, by decide, by decide, by decide⟩

/-- C4 (amended): app_v2's month-folder index is exactly
`(year − 2024) * 12 + (month − 7) + 1` — the epoch anchor (2024, July) has
index 1 — and is strictly monotone in the date, hence strictly greater at
the later of any two dates of the same academic cycle. app.py's index
(`month − 6`) ignores the year and is not monotone across the
December→January boundary. -/
theorem month_index_amended (y1 m1 y2 m2 : Nat)
    (hm1 : 1 ≤ m1) (hm1b : m1 ≤ 12) (hm2 : 1 ≤ m2) (hm2b : m2 ≤ 12)
    (hlt : dateEarlier y1 m1 y2 m2) :
    monthIndexV2 y1 m1 < monthIndexV2 y2 m2 ∧
    monthIndexV2 2024 7 = 1 ∧
    monthIndexV2 2025 2 = 8 := by
  refine ⟨?_, by decide, by decide⟩
  unfold monthIndexV2
  unfold dateEarlier at hlt
  rcases hlt with h | ⟨rfl, h⟩ <;> omega

/-- C4 (witness): the amended theorem applied to August 2024 < January
2025. -/
theorem month_index_amended_check :
    monthIndexV2 2024 8 < monthIndexV2 2025 1 ∧
    monthIndexV2 2024 7 = 1 ∧
    monthIndexV2 2025 2 = 8 :=
  month_index_amended 2024 8 2025 1 (by decide) (by decide) (by decide) (by decide)
    (by decide)

/-- C5 (confirmed): `increment_invoice_number` scans the roster rows for
the first row whose first cell equals the email exactly; EmailNotFound
(`Sum.inl` with the error string, no write) exactly when no row's email
cell equals it; on a match it writes `current + 1` to that row's counter,
an empty cell counting as 0 — so an employee with no counter ends at 1 and
one at 41 ends at 42. -/
theorem invoice_increment_spec (rows : List (List String)) (counterD : Nat → Option Int)
    (email : String) (i : Nat) :
    (findEmailRow rows email = none ↔ ∀ r ∈ rows, emailCellMatches email r = false) ∧
    (findEmailRow rows email = none →
      increment_invoice_number rows counterD email =
        Sum.inl ("Error: Email '" ++ email ++ "' not found in the 'Email' sheet.")) ∧
    (findEmailRow rows email = some i →
      increment_invoice_number rows counterD email = Sum.inr (i, (counterD i).getD 0 + 1)) ∧
    increment_invoice_number [["a@p.co"], ["b@p.co"]] exCounterD "b@p.co" = Sum.inr (2, 42) ∧
    increment_invoice_number [["a@p.co"], ["b@p.co"]] exCounterD "a@p.co" = Sum.inr (1, 1) ∧
    increment_invoice_number [["a@p.co"], ["b@p.co"]] exCounterD "c@p.co" =
      Sum.inl "Error: Email 'c@p.co' not found in the 'Email' sheet." := by
  refine ⟨?_, ?_, ?_, by decide, by decide, by decide⟩
  · unfold findEmailRow
    rw [findEmailRow_eq_scanFirst, scanFirst_eq_none_iff]
  · intro h
    unfold increment_invoice_number
    rw [h]
  · intro h
    unfold increment_invoice_number
    rw [h]
    cases hc : counterD i with
    | none => simp [hc]
    | some n =>
      by_cases hn : n = 0
      · simp [hc, hn]
      · simp [hc, hn]

/-- C6 (counterexample): the claim states that when no child has exactly
the expected name the folder is created. `get_or_create_month_folder`
tests `current_month_folder_name in item["name"]` (substring), so under a
parent whose only child is `"11. July 24"` the expected folder
`"1. July 24"` — which exists under no child name exactly — triggers no
creation at all and the children are left unchanged. -/
theorem ensure_folder_counterexample :
    (get_or_create_month_folder [⟨"11. July 24", "idA", true⟩] "1. July 24" "fresh").2.2
      = false ∧
    (get_or_create_month_folder [⟨"11. July 24", "idA", true⟩] "1. July 24" "fresh").1
      = [⟨"11. July 24", "idA", true⟩] ∧
    (∀ it ∈ [DriveItem.mk "11. July 24" "idA" true], ¬ it.name = "1. July 24") := by
  exact ⟨by decide, by decide, by decide⟩

/-- C6 (amended): the employee-folder step matches children by exact name
(returning the existing child's id with no creation, else creating); the
month-folder step treats any child folder whose name merely CONTAINS the
expected name as existing, creating only when no child name contains it.
Both are idempotent: a second call with the same arguments returns the
same identifier/name and performs no second creation. -/
theorem ensure_folder_amended (items : List DriveItem) (target formatted fid1 fid2 : String) :
    (ensure_employee_folder (ensure_employee_folder items formatted fid1).1 formatted fid2).2.1
      = (ensure_employee_folder items formatted fid1).2.1 ∧
    (ensure_employee_folder (ensure_employee_folder items formatted fid1).1 formatted fid2).2.2
      = false ∧
    (get_or_create_month_folder (get_or_create_month_folder items target fid1).1 target fid2).2.1
      = (get_or_create_month_folder items target fid1).2.1 ∧
    (get_or_create_month_folder (get_or_create_month_folder items target fid1).1 target fid2).2.2
      = false ∧
    (∀ it, items.find? (fun x => x.isFolder && formatted == x.name) = some it →
      ensure_employee_folder items formatted fid1 = (items, it.id, false)) ∧
    (items.find? (fun x => x.isFolder && formatted == x.name) = none →
      ensure_employee_folder items formatted fid1 =
        (items ++ [⟨formatted, fid1, true⟩], fid1, true)) ∧
    (items.find? (fun x => x.isFolder && substrB target x.name) = none →
      get_or_create_month_folder items target fid1 =
        (items ++ [⟨target, fid1, true⟩], target, true)) := by
  refine ⟨?_, ?_, ?_, ?_, ?_, ?_, ?_⟩
  · cases hf : items.find? (fun x => x.isFolder && formatted == x.name) with
    | some it => simp [ensure_employee_folder, hf]
    | none =>
      simp only [ensure_employee_folder, hf]
      rw [find?_append_none _ _ _ hf]
      simp [List.find?]
  · cases hf : items.find? (fun x => x.isFolder && formatted == x.name) with
    | some it => simp [ensure_employee_folder, hf]
    | none =>
      simp only [ensure_employee_folder, hf]
      rw [find?_append_none _ _ _ hf]
      simp [List.find?]
  · cases hf : items.find? (fun x => x.isFolder && substrB target x.name) with
    | some it => simp [get_or_create_month_folder, hf]
    | none =>
      simp only [get_or_create_month_folder, hf]
      rw [find?_append_none _ _ _ hf]
      simp [List.find?, substrB_self]
  · cases hf : items.find? (fun x => x.isFolder && substrB target x.name) with
    | some it => simp [get_or_create_month_folder, hf]
    | none =>
      simp only [get_or_create_month_folder, hf]
      rw [find?_append_none _ _ _ hf]
      simp [List.find?, substrB_self]
  · intro it h
    simp [ensure_employee_folder, h]
  · intro h
    simp [ensure_employee_folder, h]
  · intro h
    simp [get_or_create_month_folder, h]

/-- C7 (confirmed): the normalization app_v2 applies before every ledger
name comparison (strip, lowercase, remove parentheticals, strip) identifies
names differing only in those respects —
`normalizeKey "Jane Doe (Maternity)" = normalizeKey "jane doe "` — and the
row matcher treats two names as the same employee exactly when their
normalized keys are equal. -/
theorem name_normalization_spec (emp cat nm : String) :
    normalizeKey "Jane Doe (Maternity)" = normalizeKey "jane doe " ∧
    (rowMatchesV2 emp [cat, nm] = true ↔ normalizeKey nm = normalizeKey emp) ∧
    normalizeKey "  ALICE  " = normalizeKey "alice" := by
  refine ⟨by decide, ?_, by decide⟩
  simp [rowMatchesV2]

/-- C8 (confirmed): a 201 upload response classifies as Created, a 200
(item already present, content replaced) as AlreadyExists — which is not an
`error` outcome — and any other status as `error` with that code; the log
lines both versions emit are exactly the rendering of that classification,
and the optional-file loop attempts every file regardless of earlier
failures. -/
theorem upload_outcome_classification (s : Nat) (files : List (String × Nat)) :
    classifyUpload 201 = UploadOutcome.created ∧
    classifyUpload 200 = UploadOutcome.alreadyExists ∧
    (s ≠ 200 → s ≠ 201 → classifyUpload s = UploadOutcome.error s) ∧
    (∀ c, UploadOutcome.alreadyExists ≠ UploadOutcome.error c) ∧
    (∀ nm c, receiptLogs nm c =
      (match classifyUpload c with
        | UploadOutcome.created => []
        | UploadOutcome.alreadyExists => ["Receipt " ++ nm ++ " Already exist with the same name."]
        | UploadOutcome.error k => ["Error uploading file '" ++ nm ++ "': " ++ toString k])) ∧
    (∀ nm c, invoiceLogs nm c =
      (match classifyUpload c with
        | UploadOutcome.created => []
        | UploadOutcome.alreadyExists => ["Invoice " ++ nm ++ " Already exist with the same name."]
        | UploadOutcome.error k => ["Error uploading invoice: " ++ toString k])) ∧
    (uploadOptionals files).2 = files.map Prod.fst := by
  refine ⟨by decide, by decide, ?_, by intro c; simp, ?_, ?_, ?_⟩
  · intro h200 h201
    simp [classifyUpload, h200, h201]
  · intro nm c
    by_cases h1 : c = 201
    · simp [receiptLogs, classifyUpload, h1]
    · by_cases h2 : c = 200
      · simp [receiptLogs, classifyUpload, h1, h2]
      · simp [receiptLogs, classifyUpload, h1, h2]
  · intro nm c
    by_cases h1 : c = 201
    · simp [invoiceLogs, classifyUpload, h1]
    · by_cases h2 : c = 200
      · simp [invoiceLogs, classifyUpload, h1, h2]
      · simp [invoiceLogs, classifyUpload, h1, h2]
  · induction files with
    | nil => rfl
    | cons f t ih => simp [uploadOptionals, ih]

/-- C9 (confirmed): in both versions of `update_mastersheet_sharepoint`
the single remote write is issued exactly when both the month column and
the employee row resolve; on MonthNotFound or EmployeeNotFound the
operation returns the error string with no write, leaving the ledger
unchanged. -/
theorem ledger_update_atomic_on_lookup_failure
    (hs2 : List CellValue) (rows2 : List (List String))
    (hs1 : List CellV1) (rows1 : List (String × String))
    (emp : String) (total : Int) (month : String) :
    ((update_mastersheet_v2 hs2 rows2 emp total month).1 = none ↔
      findMonthColV2 hs2 month = none ∨ findRowV2 rows2 emp = none) ∧
    (findMonthColV2 hs2 month = none →
      update_mastersheet_v2 hs2 rows2 emp total month =
        (none, "Error: Month '" ++ month ++ "' not found in master sheet.")) ∧
    (findRowV2 rows2 emp = none →
      (update_mastersheet_v2 hs2 rows2 emp total month).1 = none) ∧
    ((update_mastersheet_v1 hs1 rows1 emp total month).1 = none ↔
      findMonthColV1 hs1 month = none ∨ findRowV1 rows1 emp = none) ∧
    (findMonthColV1 hs1 month = none →
      update_mastersheet_v1 hs1 rows1 emp total month =
        (none, "Error: Month '" ++ month ++ "' not found in master sheet.")) ∧
    (findRowV1 rows1 emp = none →
      (update_mastersheet_v1 hs1 rows1 emp total month).1 = none) := by
  refine ⟨?_, ?_, ?_, ?_, ?_, ?_⟩
  · cases hm : findMonthColV2 hs2 month with
    | none => simp [update_mastersheet_v2, hm]
    | some col =>
      cases hr : findRowV2 rows2 emp with
      | none => simp [update_mastersheet_v2, hm, hr]
      | some row => simp [update_mastersheet_v2, hm, hr]
  · intro hm
    simp [update_mastersheet_v2, hm]
  · intro hr
    cases hm : findMonthColV2 hs2 month with
    | none => simp [update_mastersheet_v2, hm]
    | some col => simp [update_mastersheet_v2, hm, hr]
  · cases hm : findMonthColV1 hs1 month with
    | none => simp [update_mastersheet_v1, hm]
    | some col =>
      cases hr : findRowV1 rows1 emp with
      | none => simp [update_mastersheet_v1, hm, hr]
      | some row => simp [update_mastersheet_v1, hm, hr]
  · intro hm
    simp [update_mastersheet_v1, hm]
  · intro hr
    cases hm : findMonthColV1 hs1 month with
    | none => simp [update_mastersheet_v1, hm]
    | some col => simp [update_mastersheet_v1, hm, hr]

/-- C10 (confirmed): whenever listing the parent folder succeeds and — if
the employee folder must be created — creation succeeds, the log list
`process_employee_folder` returns ends with
`"Files uploaded successfully to folder: <name>"`, even when the mandatory
invoice upload or any optional upload returned an error status. -/
theorem upload_log_ends_with_success (items : List DriveItem) (createStatus : Nat)
    (fid emp invPath : String) (invStatus : Nat) (optFiles : List (String × Nat))
    (hcreate : items.find? (fun it => it.isFolder && pyTitle emp == it.name) = none →
      createStatus = 201) :
    ∃ logs, process_employee_folder (Listing.ok items) createStatus fid emp invPath
        invStatus optFiles = Sum.inr logs ∧
      logs ≠ [] ∧
      logs.getLast? = some ("Files uploaded successfully to folder: " ++ pyTitle emp) := by
  refine ⟨invoiceLogs invPath invStatus ++ (uploadOptionals optFiles).1
    ++ ["Files uploaded successfully to folder: " ++ pyTitle emp], ?_, ?_, ?_⟩
  · cases hf : items.find? (fun it => it.isFolder && pyTitle emp == it.name) with
    | some it => simp only [process_employee_folder, hf]
    | none =>
      have h201 := hcreate hf
      simp only [process_employee_folder, hf, h201, if_pos]
  · simp
  · exact List.getLast?_concat _

/-- C10 (witness): the theorem at an empty parent listing with a failing
invoice upload (500) and a failing receipt upload (404). -/
theorem upload_log_ends_with_success_check :
    ∃ logs, process_employee_folder (Listing.ok []) 201 "fid" "bob jones"
        "Invoice_Bob_Jones.docx" 500 [("receipt.pdf", 404), ("ts.xlsx", 200)] = Sum.inr logs ∧
      logs ≠ [] ∧
      logs.getLast? = some ("Files uploaded successfully to folder: " ++ pyTitle "bob jones") :=
  upload_log_ends_with_success [] 201 "fid" "bob jones" "Invoice_Bob_Jones.docx" 500
    [("receipt.pdf", 404), ("ts.xlsx", 200)] (fun _ => rfl)

end InvoiceAutomation
